import Mathlib

/-!
Shallow embedding of the altitude-risk classification engine of
`src/app.py` (Altitude Sickness Risk Analyzer): the elevation
classifier `analyze_altitude`, the risk-profile evaluator
`assess_risk_profile`, and the symptom scorer (Lake Louise score,
symptom-group counts, emergency and AMS-classification branches).

Elevations are modelled as rationals (the Python code compares a
numeric elevation with integer thresholds using `<` and `>=` only, so
the rationals reproduce the order behaviour of its real-number
inputs).  Boolean flags are `Bool`, factor strings are the literal
strings of the source, and the `risk_level` strings "Low" /
"Moderate" / "High" are modelled by the three-constructor enumeration
`RiskLevel`.
-/

namespace AltitudeApp

/-- The three risk-level strings "Low", "Moderate", "High" that
`assess_risk_profile` assigns to its `risk_level` variable. -/
inductive RiskLevel where
  | low
  | moderate
  | high
deriving DecidableEq, Repr

/-- The record returned by `analyze_altitude` (src/app.py lines
87-136): a dict with keys category, risk, description, oxygen_sat,
color. -/
structure AltitudeCategory where
  category : String
  risk : String
  description : String
  oxygen_sat : String
  color : String
deriving DecidableEq, Repr

/-- The dict returned for `elevation < 1500` (src/app.py lines 89-96). -/
def sea_level_low : AltitudeCategory :=
  { category := "Sea Level to Low Altitude"
    risk := "Minimal"
    description := "No altitude-related physiological changes expected."
    oxygen_sat := ">95%"
    color := "low" }

/-- The dict returned for `1500 <= elevation < 2500` (lines 97-104). -/
def intermediate_altitude : AltitudeCategory :=
  { category := "Intermediate Altitude (1,500-2,500m)"
    risk := "Low"
    description := "Physiological changes detectable. Arterial oxygen saturation >90%. Altitude illness rare but possible with rapid ascent, exercise, and susceptible individuals."
    oxygen_sat := ">90%"
    color := "low" }

/-- The dict returned for `2500 <= elevation < 3500` (lines 105-112). -/
def high_altitude : AltitudeCategory :=
  { category := "High Altitude (2,500-3,500m)"
    risk := "Moderate"
    description := "Altitude illness common when individuals ascend rapidly. Gradual ascent and prophylaxis recommended."
    oxygen_sat := "85-90%"
    color := "medium" }

/-- The dict returned for `3500 <= elevation < 5800` (lines 113-120). -/
def very_high_altitude : AltitudeCategory :=
  { category := "Very High Altitude (3,500-5,800m)"
    risk := "High"
    description := "Altitude illness common. Marked hypoxemia during exercise. Maximum altitude of permanent habitation."
    oxygen_sat := "<90%"
    color := "high" }

/-- The dict returned for `5800 <= elevation < 8000` (lines 121-128). -/
def extreme_altitude : AltitudeCategory :=
  { category := "Extreme Altitude (5,800-8,000m)"
    risk := "Very High"
    description := "Marked hypoxemia at rest. Progressive deterioration despite maximal acclimatization. Permanent survival not possible."
    oxygen_sat := "<80%"
    color := "high" }

/-- The dict returned by the final `else` branch (lines 129-136). -/
def death_zone : AltitudeCategory :=
  { category := "Death Zone (>8,000m)"
    risk := "Extreme"
    description := "Prolonged acclimatization (>6 weeks) essential. Most mountaineers require supplementary oxygen. Arterial oxygen saturations ~55%. Rapid deterioration inevitable."
    oxygen_sat := "~55%"
    color := "high" }

/-- `analyze_altitude` (src/app.py lines 87-136): the if/elif chain on
the elevation.  Python chained comparisons `a <= e < b` are the
conjunction of the two comparisons. -/
def analyze_altitude (elevation : ℚ) : AltitudeCategory :=
  if elevation < 1500 then sea_level_low
  else if 1500 ≤ elevation ∧ elevation < 2500 then intermediate_altitude
  else if 2500 ≤ elevation ∧ elevation < 3500 then high_altitude
  else if 3500 ≤ elevation ∧ elevation < 5800 then very_high_altitude
  else if 5800 ≤ elevation ∧ elevation < 8000 then extreme_altitude
  else death_zone

/-- The six half-open intervals of the boundary table, indexed in
increasing order: [0,1500), [1500,2500), [2500,3500), [3500,5800),
[5800,8000), [8000,inf). -/
def altitude_interval (i : Fin 6) (e : ℚ) : Prop :=
  match i with
  | 0 => 0 ≤ e ∧ e < 1500
  | 1 => 1500 ≤ e ∧ e < 2500
  | 2 => 2500 ≤ e ∧ e < 3500
  | 3 => 3500 ≤ e ∧ e < 5800
  | 4 => 5800 ≤ e ∧ e < 8000
  | 5 => 8000 ≤ e

/-- The category record belonging to each interval of the boundary
table. -/
def category_of (i : Fin 6) : AltitudeCategory :=
  match i with
  | 0 => sea_level_low
  | 1 => intermediate_altitude
  | 2 => high_altitude
  | 3 => very_high_altitude
  | 4 => extreme_altitude
  | 5 => death_zone

/-- The mutable state of `assess_risk_profile` (src/app.py lines
142-143): the `risk_level` string and the `risk_factors` list. -/
structure RiskState where
  risk_level : RiskLevel
  risk_factors : List String
deriving DecidableEq, Repr

/-- The history-based block of `assess_risk_profile` (src/app.py lines
145-158): `if previous_hace or previous_hape: ... elif previous_ams:
...`, acting on the running state. -/
def historyStep (elevation : ℚ) (previous_ams previous_hace previous_hape : Bool)
    (st : RiskState) : RiskState :=
  if previous_hace || previous_hape then
    { risk_level := RiskLevel.high
      risk_factors := st.risk_factors
        ++ (if previous_hace then ["Previous HACE episode - high risk for recurrence"] else [])
        ++ (if previous_hape then ["Previous HAPE episode - high risk for recurrence"] else []) }
  else if previous_ams then
    if 3500 ≤ elevation then
      { risk_level := RiskLevel.high
        risk_factors := st.risk_factors ++ ["Previous AMS with rapid ascent to very high altitude"] }
    else
      { risk_level := RiskLevel.moderate
        risk_factors := st.risk_factors ++ ["Previous AMS history increases risk"] }
  else st

/-- The ascent-profile block of `assess_risk_profile` (src/app.py
lines 160-169): `if elevation >= 3500: ... elif elevation >= 2800:
...`.  Note that in the 2800-3500 branch the factor is appended
unconditionally once `rapid_ascent` holds, while the level is set to
Moderate only when it is not already High. -/
def ascentStep (elevation : ℚ) (rapid_ascent no_acclimatization : Bool)
    (st : RiskState) : RiskState :=
  if 3500 ≤ elevation then
    if rapid_ascent || no_acclimatization then
      { risk_level := RiskLevel.high
        risk_factors := st.risk_factors ++ ["Rapid ascent to very high altitude (>3,500m)"] }
    else st
  else if 2800 ≤ elevation then
    if rapid_ascent then
      { risk_level := if st.risk_level ≠ RiskLevel.high then RiskLevel.moderate else st.risk_level
        risk_factors := st.risk_factors ++ ["Rapid ascent to high altitude without acclimatization"] }
    else st
  else st

/-- The physical-activity block of `assess_risk_profile` (src/app.py
lines 171-173): `if physical_activity and elevation >= 2500:
risk_factors.append(...)`. -/
def activityStep (elevation : ℚ) (physical_activity : Bool)
    (st : RiskState) : RiskState :=
  if physical_activity = true ∧ 2500 ≤ elevation then
    { risk_level := st.risk_level
      risk_factors := st.risk_factors ++ ["Strenuous physical activity increases risk"] }
  else st

/-- `assess_risk_profile` (src/app.py lines 139-175): starts from
`risk_level = "Low"`, `risk_factors = []`, runs the three blocks in
source order and returns the pair `(risk_level, risk_factors)`.
Parameters are in the order of the Python signature. -/
def assess_risk_profile (elevation : ℚ)
    (previous_ams previous_hace previous_hape rapid_ascent
      physical_activity no_acclimatization : Bool) : RiskLevel × List String :=
  let st := activityStep elevation physical_activity
    (ascentStep elevation rapid_ascent no_acclimatization
      (historyStep elevation previous_ams previous_hace previous_hape
        { risk_level := RiskLevel.low, risk_factors := [] }))
  (st.risk_level, st.risk_factors)

/-- The fourteen symptom checkboxes of the symptoms checker
(src/app.py lines 280-304), all false by default as in the UI. -/
structure SymptomSet where
  headache : Bool := false
  nausea : Bool := false
  fatigue : Bool := false
  dizziness : Bool := false
  anorexia : Bool := false
  dyspnea_exertion : Bool := false
  dyspnea_rest : Bool := false
  cough_dry : Bool := false
  cough_productive : Bool := false
  chest_tightness : Bool := false
  ataxia : Bool := false
  altered_mental : Bool := false
  severe_lassitude : Bool := false
  cyanosis : Bool := false
deriving DecidableEq, Repr

/-- `lake_louise_score` (src/app.py lines 307-315): starts at 0 and
adds 1 for each of the four conditions in source order. -/
def lake_louise_score (s : SymptomSet) : Nat :=
  let score : Nat := 0
  let score := if s.headache then score + 1 else score
  let score := if s.nausea || s.anorexia then score + 1 else score
  let score := if s.fatigue then score + 1 else score
  if s.dizziness then score + 1 else score

/-- `basic_symptoms` (src/app.py line 318): Python sums the five
booleans, counting each true flag as 1. -/
def basic_symptoms (s : SymptomSet) : Nat :=
  s.headache.toNat + s.nausea.toNat + s.fatigue.toNat + s.dizziness.toNat + s.anorexia.toNat

/-- `pulmonary_symptoms` (src/app.py line 319). -/
def pulmonary_symptoms (s : SymptomSet) : Nat :=
  s.dyspnea_exertion.toNat + s.dyspnea_rest.toNat + s.cough_dry.toNat
    + s.cough_productive.toNat + s.chest_tightness.toNat

/-- `cerebral_symptoms` (src/app.py line 320): the code sums only
`ataxia`, `altered_mental` and `severe_lassitude`.  The `cyanosis`
checkbox (line 304) is read nowhere in the analysis. -/
def cerebral_symptoms (s : SymptomSet) : Nat :=
  s.ataxia.toNat + s.altered_mental.toNat + s.severe_lassitude.toNat

/-- Condition of the HACE-suspected emergency branch (src/app.py line
325): `cerebral_symptoms > 0`. -/
def hace_suspected (s : SymptomSet) : Bool :=
  decide (0 < cerebral_symptoms s)

/-- Condition of the HAPE-suspected emergency branch (src/app.py line
336): `pulmonary_symptoms >= 2 or dyspnea_rest or cough_productive`. -/
def hape_suspected (s : SymptomSet) : Bool :=
  decide (2 ≤ pulmonary_symptoms s) || s.dyspnea_rest || s.cough_productive

/-- The emergency classification of the symptom checker: one of the
two emergency branches (src/app.py lines 325-346) fires. -/
def is_emergency (s : SymptomSet) : Bool :=
  hace_suspected s || hape_suspected s

/-- Guard of the AMS-diagnosis block (src/app.py line 348): `headache
and basic_symptoms >= 1 and cerebral_symptoms == 0 and
pulmonary_symptoms < 2`. -/
def ams_gate (s : SymptomSet) : Bool :=
  s.headache && decide (1 ≤ basic_symptoms s)
    && decide (cerebral_symptoms s = 0) && decide (pulmonary_symptoms s < 2)

/-- The three-way AMS classification of the spec's SymptomScorer. -/
inductive AMSClassification where
  | noAMS
  | mildModerate
  | severe
deriving DecidableEq, Repr

/-- The AMS-classification branches (src/app.py lines 348-362): inside
the guard, `lake_louise_score >= 6` reports severe AMS and
`lake_louise_score >= 3` reports mild-moderate AMS; in every other
case no AMS diagnosis is reported. -/
def ams_classification (s : SymptomSet) : AMSClassification :=
  if ams_gate s then
    if 6 ≤ lake_louise_score s then AMSClassification.severe
    else if 3 ≤ lake_louise_score s then AMSClassification.mildModerate
    else AMSClassification.noAMS
  else AMSClassification.noAMS

/-- The emergency rule as the spec states it (spec §3): cerebral/danger
group count — with `cyanosis` included in the group — positive, or
pulmonary count at least 2, or dyspnea at rest, or productive cough.
Written from the spec's words for comparison with `is_emergency`. -/
def spec_danger_count (s : SymptomSet) : Nat :=
  s.ataxia.toNat + s.altered_mental.toNat + s.severe_lassitude.toNat + s.cyanosis.toNat

/-- The spec's `isEmergency` (spec §3), for comparison with the code's
`is_emergency`. -/
def spec_is_emergency (s : SymptomSet) : Bool :=
  decide (0 < spec_danger_count s) || decide (2 ≤ pulmonary_symptoms s)
    || s.dyspnea_rest || s.cough_productive

/-- Rank of a risk level in the ordering Low < Moderate < High. -/
def level_rank : RiskLevel → Nat
  | RiskLevel.low => 0
  | RiskLevel.moderate => 1
  | RiskLevel.high => 2

/-- Claim C2: for every elevation e at least 0, `analyze_altitude`
returns exactly one of the six categories of the boundary table: the
six half-open intervals partition the nonnegative rationals (exactly
one interval holds for each such e), the returned record is the one
belonging to the interval containing e, and every boundary value goes
to the higher interval: 2500 is Moderate, 3500 is High, 8000 is
Extreme. -/
theorem analyze_altitude_partition :
    (∀ e : ℚ, 0 ≤ e → ∃! i : Fin 6, altitude_interval i e) ∧
    (∀ (e : ℚ) (i : Fin 6), altitude_interval i e → analyze_altitude e = category_of i) ∧
    (analyze_altitude 2500).risk = "Moderate" ∧
    (analyze_altitude 3500).risk = "High" ∧
    (analyze_altitude 8000).risk = "Extreme" := by
  refine ⟨?_, ?_, rfl, rfl, rfl⟩
  · intro e he
    rcases lt_or_le e 1500 with h1 | h1
    · refine ⟨0, ⟨he, h1⟩, ?_⟩
      intro j hj
      fin_cases j
      · rfl
      · exact absurd hj (by rintro ⟨h, -⟩; linarith)
      · exact absurd hj (by rintro ⟨h, -⟩; linarith)
      · exact absurd hj (by rintro ⟨h, -⟩; linarith)
      · exact absurd hj (by rintro ⟨h, -⟩; linarith)
      · exact absurd hj (by intro h; have h8 : (8000:ℚ) ≤ e := h; linarith)
    rcases lt_or_le e 2500 with h2 | h2
    · refine ⟨1, ⟨h1, h2⟩, ?_⟩
      intro j hj
      fin_cases j
      · exact absurd hj (by rintro ⟨-, h⟩; linarith)
      · rfl
      · exact absurd hj (by rintro ⟨h, -⟩; linarith)
      · exact absurd hj (by rintro ⟨h, -⟩; linarith)
      · exact absurd hj (by rintro ⟨h, -⟩; linarith)
      · exact absurd hj (by intro h; have h8 : (8000:ℚ) ≤ e := h; linarith)
    rcases lt_or_le e 3500 with h3 | h3
    · refine ⟨2, ⟨h2, h3⟩, ?_⟩
      intro j hj
      fin_cases j
      · exact absurd hj (by rintro ⟨-, h⟩; linarith)
      · exact absurd hj (by rintro ⟨-, h⟩; linarith)
      · rfl
      · exact absurd hj (by rintro ⟨h, -⟩; linarith)
      · exact absurd hj (by rintro ⟨h, -⟩; linarith)
      · exact absurd hj (by intro h; have h8 : (8000:ℚ) ≤ e := h; linarith)
    rcases lt_or_le e 5800 with h4 | h4
    · refine ⟨3, ⟨h3, h4⟩, ?_⟩
      intro j hj
      fin_cases j
      · exact absurd hj (by rintro ⟨-, h⟩; linarith)
      · exact absurd hj (by rintro ⟨-, h⟩; linarith)
      · exact absurd hj (by rintro ⟨-, h⟩; linarith)
      · rfl
      · exact absurd hj (by rintro ⟨h, -⟩; linarith)
      · exact absurd hj (by intro h; have h8 : (8000:ℚ) ≤ e := h; linarith)
    rcases lt_or_le e 8000 with h5 | h5
    · refine ⟨4, ⟨h4, h5⟩, ?_⟩
      intro j hj
      fin_cases j
      · exact absurd hj (by rintro ⟨-, h⟩; linarith)
      · exact absurd hj (by rintro ⟨-, h⟩; linarith)
      · exact absurd hj (by rintro ⟨-, h⟩; linarith)
      · exact absurd hj (by rintro ⟨-, h⟩; linarith)
      · rfl
      · exact absurd hj (by intro h; have h8 : (8000:ℚ) ≤ e := h; linarith)
    · refine ⟨5, h5, ?_⟩
      intro j hj
      fin_cases j
      · exact absurd hj (by rintro ⟨-, h⟩; linarith)
      · exact absurd hj (by rintro ⟨-, h⟩; linarith)
      · exact absurd hj (by rintro ⟨-, h⟩; linarith)
      · exact absurd hj (by rintro ⟨-, h⟩; linarith)
      · exact absurd hj (by rintro ⟨-, h⟩; linarith)
      · rfl
  · intro e i hi
    fin_cases i
    · obtain ⟨-, h⟩ := hi
      unfold analyze_altitude
      rw [if_pos h]
      rfl
    · obtain ⟨h1, h2⟩ := hi
      unfold analyze_altitude
      rw [if_neg (by push_neg; linarith), if_pos ⟨h1, h2⟩]
      rfl
    · obtain ⟨h1, h2⟩ := hi
      unfold analyze_altitude
      rw [if_neg (by push_neg; linarith), if_neg (by rintro ⟨-, h⟩; linarith),
        if_pos ⟨h1, h2⟩]
      rfl
    · obtain ⟨h1, h2⟩ := hi
      unfold analyze_altitude
      rw [if_neg (by push_neg; linarith), if_neg (by rintro ⟨-, h⟩; linarith),
        if_neg (by rintro ⟨-, h⟩; linarith), if_pos ⟨h1, h2⟩]
      rfl
    · obtain ⟨h1, h2⟩ := hi
      unfold analyze_altitude
      rw [if_neg (by push_neg; linarith), if_neg (by rintro ⟨-, h⟩; linarith),
        if_neg (by rintro ⟨-, h⟩; linarith), if_neg (by rintro ⟨-, h⟩; linarith),
        if_pos ⟨h1, h2⟩]
      rfl
    · have h1 : (8000 : ℚ) ≤ e := hi
      unfold analyze_altitude
      rw [if_neg (by push_neg; linarith), if_neg (by rintro ⟨-, h⟩; linarith),
        if_neg (by rintro ⟨-, h⟩; linarith), if_neg (by rintro ⟨-, h⟩; linarith),
        if_neg (by rintro ⟨-, h⟩; linarith)]
      rfl

/-- Witness for claim C2 at the boundary elevation 2500: it lies in
exactly one interval, and `analyze_altitude` returns the category of
interval 2 (High Altitude, risk Moderate). -/
theorem analyze_altitude_partition_witness :
    (∃! i : Fin 6, altitude_interval i 2500) ∧ analyze_altitude 2500 = category_of 2 :=
  ⟨analyze_altitude_partition.1 2500 (by decide),
    analyze_altitude_partition.2.1 2500 2 ⟨by decide, by decide⟩⟩

/-- Counterexample to claim C3: `analyze_altitude (-1)` does not fail;
it returns the Sea Level to Low Altitude category with risk Minimal
(the `elevation < 1500` branch captures every negative input). -/
theorem analyze_altitude_neg_one_returns_category :
    analyze_altitude (-1) = sea_level_low ∧ (analyze_altitude (-1)).risk = "Minimal" :=
  ⟨rfl, rfl⟩

/-- Claim C3 as amended: `analyze_altitude` performs no input
validation; every negative elevation is classified into the Sea Level
to Low Altitude category with risk Minimal instead of failing with an
InvalidInput error. -/
theorem analyze_altitude_negative_classified (e : ℚ) (h : e < 0) :
    analyze_altitude e = sea_level_low := by
  unfold analyze_altitude
  rw [if_pos (by linarith)]

/-- Witness for the amended claim C3 at elevation -2. -/
theorem analyze_altitude_negative_classified_witness :
    analyze_altitude (-2) = sea_level_low :=
  analyze_altitude_negative_classified (-2) (by decide)

/-- Claim C10: `analyze_altitude` is total (its type is a function on
all rationals and it never fails), and every input below 1500 —
negative inputs included — lands in the first branch and is silently
classified as Sea Level to Low Altitude with risk Minimal. -/
theorem analyze_altitude_total_below_1500 (e : ℚ) (h : e < 1500) :
    analyze_altitude e = sea_level_low ∧ (analyze_altitude e).risk = "Minimal" := by
  unfold analyze_altitude
  rw [if_pos h]
  exact ⟨rfl, rfl⟩

/-- Witness for claim C10 at the negative elevation -5. -/
theorem analyze_altitude_total_below_1500_witness :
    analyze_altitude (-5) = sea_level_low ∧ (analyze_altitude (-5)).risk = "Minimal" :=
  analyze_altitude_total_below_1500 (-5) (by decide)

/-- Claim C5: with previous AMS as the only history flag, the
assessment level is High with first factor the previous-AMS
very-high-altitude factor when the elevation is at least 3500, and
Moderate with first factor the previous-AMS history factor otherwise,
whatever the ascent and activity flags are.  In particular at
elevation 3000 the level is Moderate. -/
theorem previous_ams_only_assessment (e : ℚ) (rapid act acc : Bool) :
    (assess_risk_profile e true false false rapid act acc).1
        = (if 3500 ≤ e then RiskLevel.high else RiskLevel.moderate) ∧
    (assess_risk_profile e true false false rapid act acc).2.head?
        = some (if 3500 ≤ e then "Previous AMS with rapid ascent to very high altitude"
            else "Previous AMS history increases risk") := by
  by_cases h35 : 3500 ≤ e <;> by_cases h28 : 2800 ≤ e <;> by_cases h25 : 2500 ≤ e <;>
    cases rapid <;> cases act <;> cases acc <;>
      simp [assess_risk_profile, historyStep, ascentStep, activityStep, h35, h28, h25]

/-- Helper: the ascent-profile block never lowers the risk level. -/
theorem ascentStep_level_mono (e : ℚ) (r a : Bool) (st : RiskState) :
    level_rank st.risk_level ≤ level_rank (ascentStep e r a st).risk_level := by
  obtain ⟨lvl, fs⟩ := st
  by_cases h35 : 3500 ≤ e <;> by_cases h28 : 2800 ≤ e <;>
    cases r <;> cases a <;> cases lvl <;>
      simp [ascentStep, level_rank, h35, h28]

/-- Helper: the physical-activity block leaves the risk level
unchanged. -/
theorem activityStep_level_eq (e : ℚ) (b : Bool) (st : RiskState) :
    (activityStep e b st).risk_level = st.risk_level := by
  unfold activityStep
  split_ifs <;> rfl

/-- Claim C6: within one evaluation of `assess_risk_profile` the risk
level is monotonically non-decreasing, in the ordering Low < Moderate
< High, across the three evaluation steps (history, ascent profile,
physical activity), for every elevation and every combination of the
six flags. -/
theorem risk_level_monotone (e : ℚ) (ams hace hape rapid act acc : Bool) :
    level_rank RiskLevel.low
        ≤ level_rank (historyStep e ams hace hape ⟨RiskLevel.low, []⟩).risk_level ∧
    level_rank (historyStep e ams hace hape ⟨RiskLevel.low, []⟩).risk_level
        ≤ level_rank (ascentStep e rapid acc
            (historyStep e ams hace hape ⟨RiskLevel.low, []⟩)).risk_level ∧
    level_rank (ascentStep e rapid acc
        (historyStep e ams hace hape ⟨RiskLevel.low, []⟩)).risk_level
        ≤ level_rank (activityStep e act (ascentStep e rapid acc
            (historyStep e ams hace hape ⟨RiskLevel.low, []⟩))).risk_level := by
  refine ⟨Nat.zero_le _, ascentStep_level_mono e rapid acc _, ?_⟩
  rw [activityStep_level_eq]

/-- Claim C9: the physical-activity step appends exactly one
strenuous-activity factor and leaves the level untouched when the
activity flag is set and the elevation is at least 2500, and does
nothing otherwise. -/
theorem activity_step_frame (e : ℚ) (act : Bool) (st : RiskState) :
    (act = true → 2500 ≤ e →
      activityStep e act st
        = ⟨st.risk_level, st.risk_factors ++ ["Strenuous physical activity increases risk"]⟩) ∧
    (act = false ∨ e < 2500 → activityStep e act st = st) := by
  constructor
  · intro ha he
    unfold activityStep
    rw [if_pos ⟨ha, he⟩]
  · intro h
    unfold activityStep
    rw [if_neg]
    rintro ⟨h1, h2⟩
    rcases h with h | h
    · rw [h] at h1
      exact Bool.false_ne_true h1
    · linarith

/-- Witness for claim C9 at elevation 3000 with the activity flag set,
from the Low state with no factors. -/
theorem activity_step_frame_witness :
    activityStep 3000 true ⟨RiskLevel.low, []⟩
      = ⟨RiskLevel.low, ["Strenuous physical activity increases risk"]⟩ :=
  (activity_step_frame 3000 true ⟨RiskLevel.low, []⟩).1 rfl (by decide)

/-- Counterexample to claim C4: at elevation 3000 with previous AMS
and rapid ascent, the level reached before the ascent-profile step is
already Moderate, yet the rapid-ascent factor IS appended: the result
holds two factors, not one. -/
theorem ascent_factor_at_3000_with_ams :
    (assess_risk_profile 3000 true false false true false false).1 = RiskLevel.moderate ∧
    (assess_risk_profile 3000 true false false true false false).2
      = ["Previous AMS history increases risk",
         "Rapid ascent to high altitude without acclimatization"] :=
  ⟨rfl, rfl⟩

/-- Claim C4 as amended: the ascent-profile step forces High and
appends the very-high-altitude factor when the elevation is at least
3500 and rapid ascent or no acclimatization holds; when 2800 is at
most the elevation, the elevation is below 3500 and rapid ascent
holds, it appends the rapid-ascent factor regardless of the current
level and raises the level to Moderate exactly when the level is not
already High; in the remaining cases it changes nothing. -/
theorem ascent_step_characterization (e : ℚ) (r a : Bool) (st : RiskState) :
    (3500 ≤ e → (r || a) = true →
      ascentStep e r a st
        = ⟨RiskLevel.high,
            st.risk_factors ++ ["Rapid ascent to very high altitude (>3,500m)"]⟩) ∧
    (2800 ≤ e → e < 3500 → r = true →
      ascentStep e r a st
        = ⟨if st.risk_level = RiskLevel.high then RiskLevel.high else RiskLevel.moderate,
            st.risk_factors ++ ["Rapid ascent to high altitude without acclimatization"]⟩) ∧
    (¬ (3500 ≤ e ∧ (r || a) = true) → ¬ (2800 ≤ e ∧ e < 3500 ∧ r = true) →
      ascentStep e r a st = st) := by
  obtain ⟨lvl, fs⟩ := st
  refine ⟨?_, ?_, ?_⟩
  · intro h35 hra
    unfold ascentStep
    rw [if_pos h35, if_pos hra]
  · intro h28 h35 hr
    unfold ascentStep
    rw [if_neg (not_le.mpr h35), if_pos h28, if_pos hr]
    cases lvl <;> rfl
  · intro hn1 hn2
    unfold ascentStep
    by_cases h35 : 3500 ≤ e
    · rw [if_pos h35, if_neg (fun hra => hn1 ⟨h35, hra⟩)]
    · rw [if_neg h35]
      by_cases h28 : 2800 ≤ e
      · rw [if_pos h28, if_neg (fun hr => hn2 ⟨h28, not_le.mp h35, hr⟩)]
      · rw [if_neg h28]

/-- Witness for the amended claim C4 at elevation 3600 with rapid
ascent, from the Low state with no factors. -/
theorem ascent_step_characterization_witness :
    ascentStep 3600 true false ⟨RiskLevel.low, []⟩
      = ⟨RiskLevel.high, ["Rapid ascent to very high altitude (>3,500m)"]⟩ :=
  (ascent_step_characterization 3600 true false ⟨RiskLevel.low, []⟩).1 (by decide) rfl

/-- Helper: the Lake Louise score never exceeds 4. -/
theorem lake_louise_score_le_four (s : SymptomSet) : lake_louise_score s ≤ 4 := by
  obtain ⟨hh, hn, hf, hd, ha, s6, s7, s8, s9, s10, s11, s12, s13, s14⟩ := s
  cases hh <;> cases hn <;> cases hf <;> cases hd <;> cases ha <;>
    simp [lake_louise_score]

/-- Claim C7: the Lake Louise score is the sum of the four 0/1
indicators headache, nausea-or-anorexia, fatigue and dizziness, so it
always lies between 0 and 4; with headache and nausea alone the score
is 2. -/
theorem lake_louise_score_spec (s : SymptomSet) :
    lake_louise_score s
        = s.headache.toNat + (s.nausea || s.anorexia).toNat
          + s.fatigue.toNat + s.dizziness.toNat ∧
    lake_louise_score s ≤ 4 ∧
    lake_louise_score { headache := true, nausea := true } = 2 := by
  refine ⟨?_, lake_louise_score_le_four s, by decide⟩
  obtain ⟨hh, hn, hf, hd, ha, s6, s7, s8, s9, s10, s11, s12, s13, s14⟩ := s
  cases hh <;> cases hn <;> cases hf <;> cases hd <;> cases ha <;>
    simp [lake_louise_score]

/-- Counterexample to claim C8: nausea, fatigue and dizziness alone
give Lake Louise score 3, but the code reports no AMS diagnosis —
the claimed threshold rule says score 3 gives MildModerate, so the
classification is not determined by the score alone. -/
theorem score_three_without_headache_no_ams :
    lake_louise_score { nausea := true, fatigue := true, dizziness := true } = 3 ∧
    ams_classification { nausea := true, fatigue := true, dizziness := true }
      = AMSClassification.noAMS := by
  exact ⟨rfl, rfl⟩

/-- Claim C8 as amended: the AMS classification applies the score
thresholds only under the diagnosis guard (headache, at least one
basic symptom, no cerebral symptom, pulmonary count below 2); under
the guard, score at least 6 gives Severe and score at least 3 gives
MildModerate, and in every other case the classification is NoAMS.
The Severe branch is retained but unreachable, because the score
never exceeds 4. -/
theorem ams_classification_characterization (s : SymptomSet) :
    (ams_classification s = AMSClassification.mildModerate
        ↔ ams_gate s = true ∧ 3 ≤ lake_louise_score s) ∧
    (ams_classification s = AMSClassification.severe
        ↔ ams_gate s = true ∧ 6 ≤ lake_louise_score s) ∧
    (ams_classification s = AMSClassification.noAMS
        ↔ ams_gate s = false ∨ lake_louise_score s ≤ 2) ∧
    (ams_classification s = AMSClassification.noAMS
        ∨ ams_classification s = AMSClassification.mildModerate) := by
  have h4 := lake_louise_score_le_four s
  have h6 : ¬ (6 ≤ lake_louise_score s) := by omega
  unfold ams_classification
  by_cases hg : ams_gate s = true
  · rw [if_pos hg, if_neg h6]
    by_cases h3 : 3 ≤ lake_louise_score s
    · rw [if_pos h3]
      refine ⟨iff_of_true rfl ⟨hg, h3⟩, ?_, ?_, Or.inr rfl⟩
      · exact iff_of_false (by simp) (fun h => h6 h.2)
      · refine iff_of_false (by simp) ?_
        rintro (hf | hle)
        · rw [hg] at hf
          exact Bool.noConfusion hf
        · omega
    · rw [if_neg h3]
      refine ⟨?_, ?_, iff_of_true rfl (Or.inr (by omega)), Or.inl rfl⟩
      · exact iff_of_false (by simp) (fun h => h3 h.2)
      · exact iff_of_false (by simp) (fun h => h6 h.2)
  · rw [if_neg hg]
    have hg' : ams_gate s = false := by
      cases h : ams_gate s
      · rfl
      · exact absurd h hg
    refine ⟨?_, ?_, iff_of_true rfl (Or.inl hg'), Or.inl rfl⟩
    · exact iff_of_false (by simp) (fun h => hg h.1)
    · exact iff_of_false (by simp) (fun h => hg h.1)

/-- Witness for the amended claim C8: headache, nausea and fatigue
give score 3, pass the guard and are classified MildModerate. -/
theorem ams_classification_characterization_witness :
    ams_classification { headache := true, nausea := true, fatigue := true }
      = AMSClassification.mildModerate :=
  ((ams_classification_characterization
      { headache := true, nausea := true, fatigue := true }).1).mpr ⟨by decide, by decide⟩

/-- Claim C1 (code bug): a symptom set with cyanosis alone is NOT
classified as an emergency by the code, although the spec places
cyanosis in the cerebral/danger group and the UI itself lists the
cyanosis checkbox under the severe warning signs marked as a medical
emergency: `cerebral_symptoms` (src/app.py line 320) sums only
ataxia, altered mental status and severe lassitude, and the
`cyanosis` variable is never read by the analysis. -/
theorem cyanosis_only_not_emergency :
    is_emergency { cyanosis := true } = false ∧
    spec_is_emergency { cyanosis := true } = true := by
  exact ⟨rfl, rfl⟩

end AltitudeApp
